import Mathlib

/-!
Shallow embedding of `data_generatot.py`, a one-shot synthetic-data
generator producing customers, products, orders and order items.

Randomness is made explicit: every call to `random.randint(a, b)` or
`random.choice(lst)` in the source is modelled by an oracle function
(`Nat → Nat`, `Nat → String`, ...) supplied as a parameter, indexed by the
loop variable (or by the global item counter for the inner item loop).
Range facts such as `a ≤ draw i ∧ draw i ≤ b` become hypotheses of the
theorems, since Python's `random.randint(a, b)` always returns a value in
`[a, b]` and `random.choice` always returns a member of its list.

Python `datetime` values in the order generator are modelled as natural
numbers counting seconds: `timedelta(days = d)` adds `d * 86400` and
`timedelta(hours = h)` adds `h * 3600`.  Only ordering and arithmetic on
these timestamps matter to the claims about the order generator.
-/

namespace DataGen

/-! ### Customers (source lines 13-23) -/

/-- Python address dict `{street, city, state}` built on line 21. -/
structure Address where
  street : String
  city : String
  state : String
deriving DecidableEq, Repr

/-- One customer record, as the dict built on lines 16-21. -/
structure Customer where
  customer_id : Nat
  name : String
  email : String
  address : Address
deriving DecidableEq, Repr

/-- The three fixed email domains of line 20. -/
def email_domains : List String := ["hotmail.com", "gmail.com", "coldmail.com"]

/-- Models Python `s.replace(" ", "")`: for the one-character pattern `" "`
this removes every space character of the string. -/
def pyRemoveSpaces (s : String) : String := ⟨s.data.filter (fun c => c ≠ ' ')⟩

/-- Models Python `s.lower()`: lower-cases every character. -/
def pyLower (s : String) : String := ⟨s.data.map Char.toLower⟩

/-- The dict built for one loop index on lines 16-21.  `name` stands for the
`faker.name()` call, `domain` for the `random.choice` over
`email_domains`, and `addr` for the faker-generated address. -/
def single_customer_data (i : Nat) (name : String) (domain : String)
    (addr : Address) : Customer :=
  { customer_id := i
    name := name
    email := pyLower (pyRemoveSpaces name) ++ "@" ++ domain
    address := addr }

/-- The customer list built by the `for i in range(1, 25)` loop
(lines 15-23). -/
def sample_customers_list (names : Nat → String) (doms : Nat → String)
    (addrs : Nat → Address) : List Customer :=
  (List.range' 1 24).map (fun i => single_customer_data i (names i) (doms i) (addrs i))

/-! ### Products (source lines 27-42) -/

/-- The static product-name list (lines 28-32). -/
def product_names : List String :=
  ["Laptop", "Phone", "Tablet", "Headphones", "Smartwatch", "Monitor",
   "Keyboard", "Mouse", "Gaming Chair", "Desk Lamp", "Router",
   "External Hard Drive", "USB Flash Drive", "Camera", "Speakers",
   "Fitness Tracker", "Microwave", "Blender", "Air Fryer",
   "Electric Kettle", "Projector", "Desk Organizer"]

/-- The static category list, positionally parallel to `product_names`
(lines 33-37). -/
def product_categories : List String :=
  ["Electronics", "Electronics", "Electronics", "Accessories",
   "Wearables", "Electronics", "Accessories", "Accessories",
   "Furniture", "Lighting", "Networking", "Storage", "Storage",
   "Electronics", "Audio", "Wearables", "Appliances", "Appliances",
   "Appliances", "Appliances", "Electronics", "Furniture"]

/-- One product record, as the dict built on lines 39-42. -/
structure Product where
  product_id : Nat
  product_name : String
  category : String
  price : Nat
  stock_quantity : Nat
deriving DecidableEq, Repr

/-- The product list built by the `for i in range(101, 123)` loop
(lines 38-42).  `priceD i` models `random.randint(30, 1200)` at index `i`,
`stockD i` models `random.randint(20, 90)`. -/
def sample_products_list (priceD stockD : Nat → Nat) : List Product :=
  (List.range' 101 22).map (fun i =>
    { product_id := i
      product_name := product_names.getD (i - 101) ""
      category := product_categories.getD (i - 101) ""
      price := priceD i
      stock_quantity := stockD i })

/-! ### Orders (source lines 44-53) -/

/-- The fixed base instant `datetime(2024, 1, 15, 10, 0, 0)` of line 46,
as seconds counted from the start of 2024: 14 whole days plus 10 hours. -/
def base_order_date : Nat := 14 * 86400 + 10 * 3600

/-- One order record (dict of lines 45-48, plus the conditional
`delivery_date` key of lines 50-51).  The conditionally-present
`delivery_date` dict key is modelled as an `Option`: `none` means the key
is absent. -/
structure PyOrder where
  order_id : Nat
  customer_id : Nat
  order_date : Nat
  status : String
  delivery_date : Option Nat
deriving DecidableEq, Repr

/-- The order built for one loop index (lines 45-53).  `custD` models
`random.randint(1, 24)`, `dayD` models `random.randint(0, 730)`, `st` the
`random.choice(["Delivered", "Pending"])`, and `dd`, `dh` the
`random.randint(0, 7)` days and `random.randint(2, 24)` hours used only on
the `"Delivered"` branch (line 51). -/
def single_order (i custD dayD : Nat) (st : String) (dd dh : Nat) : PyOrder :=
  let od := base_order_date + dayD * 86400
  { order_id := i
    customer_id := custD
    order_date := od
    status := st
    delivery_date := if st = "Delivered" then some (od + dd * 86400 + dh * 3600) else none }

/-- The order list built by the `for i in range(5001, 5030)` loop
(lines 44-53), with all random draws supplied by oracles indexed by `i`. -/
def sample_orders_list (custD dayD : Nat → Nat) (st : Nat → String)
    (dd dh : Nat → Nat) : List PyOrder :=
  (List.range' 5001 29).map (fun i => single_order i (custD i) (dayD i) (st i) (dd i) (dh i))

/-! ### Order items (source lines 56-72) -/

/-- One order-item record, as the dict appended on lines 65-71. -/
structure OrderItem where
  order_item_id : Nat
  order_id : Nat
  product_id : Nat
  quantity : Nat
  price : Nat
deriving DecidableEq, Repr

/-- Fallback product for the (never taken in range) out-of-bounds case of
list indexing in the embedding of `random.choice(sample_products_list)`. -/
def defaultProduct : Product :=
  { product_id := 0, product_name := "", category := "", price := 0, stock_quantity := 0 }

/-- Fallback order item for positional (`getD`) access in statements about
concrete runs. -/
def defaultOrderItem : OrderItem :=
  { order_item_id := 0, order_id := 0, product_id := 0, quantity := 0, price := 0 }

/-- The inner `for _ in range(num_items)` loop (lines 61-72) for one order:
starting from counter value `c`, produce `n` items for order id `oid`.
`pick c` models `random.choice(sample_products_list)` as an index into
`products` drawn at counter value `c`; `qty c` models
`random.randint(1, 3)`.  The counter increment of line 72 is the `c + 1`
of the recursive call. -/
def genOrderItems (products : List Product) (pick qty : Nat → Nat)
    (oid : Nat) : Nat → Nat → List OrderItem
  | _, 0 => []
  | c, n + 1 =>
    let product := products.getD (pick c) defaultProduct
    { order_item_id := c
      order_id := oid
      product_id := product.product_id
      quantity := qty c
      price := product.price } :: genOrderItems products pick qty oid (c + 1) n

/-- The outer `for order in sample_orders_list` loop (lines 59-72):
walks the order list, threading the shared counter `c` (started at 9001 on
line 57) across order boundaries; `num k` models the
`random.randint(1, 5)` item count drawn for the `k`-th order. -/
def sample_order_items_aux (products : List Product) (pick qty num : Nat → Nat) :
    List PyOrder → Nat → Nat → List OrderItem
  | [], _, _ => []
  | o :: os, c, k =>
    genOrderItems products pick qty o.order_id c (num k) ++
      sample_order_items_aux products pick qty num os (c + num k) (k + 1)

/-- The full order-item list of lines 56-72, generated from the concrete
product and order lists with the shared counter starting at 9001. -/
def sample_order_items_list (custD dayD : Nat → Nat) (st : Nat → String)
    (dd dh : Nat → Nat) (priceD stockD pick qty num : Nat → Nat) : List OrderItem :=
  sample_order_items_aux (sample_products_list priceD stockD) pick qty num
    (sample_orders_list custD dayD st dd dh) 9001 0

/-! ### Serializer (source lines 78-81) -/

/-- A Python `datetime.datetime` value, as the serializer sees it. -/
structure PyDatetime where
  year : Nat
  month : Nat
  day : Nat
  hour : Nat
  minute : Nat
  second : Nat
deriving DecidableEq, Repr

/-- Zero-pad a number to two digits, as in ISO-8601 components. -/
def pad2 (n : Nat) : String :=
  if n < 10 then "0" ++ toString n else toString n

/-- Zero-pad a number to four digits, as in ISO-8601 years. -/
def pad4 (n : Nat) : String :=
  if n < 10 then "000" ++ toString n
  else if n < 100 then "00" ++ toString n
  else if n < 1000 then "0" ++ toString n
  else toString n

/-- Python's `datetime.isoformat()` for a microsecond-free value:
`YYYY-MM-DDTHH:MM:SS`. -/
def PyDatetime.isoformat (d : PyDatetime) : String :=
  pad4 d.year ++ "-" ++ pad2 d.month ++ "-" ++ pad2 d.day ++ "T" ++
    pad2 d.hour ++ ":" ++ pad2 d.minute ++ ":" ++ pad2 d.second

/-- The universe of Python values that can reach `json.dump`'s `default`
hook: datetimes and every other (non-datetime) runtime value. -/
inductive PyValue where
  | vDatetime (d : PyDatetime)
  | vNone
  | vBool (b : Bool)
  | vInt (n : Int)
  | vStr (s : String)
  | vList (l : List PyValue)
  | vDict (l : List (String × PyValue))

/-- `custom_serializer` (lines 78-81): returns `obj.isoformat()` when
`isinstance(obj, datetime)`, otherwise raises
`TypeError("Type not serializable")`, modelled as `Except.error`. -/
def custom_serializer : PyValue → Except String String
  | .vDatetime d => .ok d.isoformat
  | _ => .error "Type not serializable"

/-! ### Helper lemmas -/

/-- Lower-casing an upper-case latin letter never yields a space. -/
theorem ofNat_shift_ne_space (m : Nat) (h1 : 65 ≤ m) (h2 : m ≤ 90) :
    Char.ofNat (m + 32) ≠ ' ' := by
  interval_cases m <;> decide

/-- `Char.toLower` maps a character to the space character exactly when the
character is itself the space character. -/
theorem toLower_space_iff (c : Char) : c.toLower = ' ' ↔ c = ' ' := by
  constructor
  · intro h
    by_contra hc
    simp only [Char.toLower] at h
    split at h
    · next hcond => exact ofNat_shift_ne_space c.toNat hcond.1 hcond.2 h
    · exact hc h
  · intro h
    subst h
    decide

/-- Removing spaces and then lower-casing produces the same string as
lower-casing and then removing spaces. -/
theorem pyLower_pyRemoveSpaces (s : String) :
    pyLower (pyRemoveSpaces s) = pyRemoveSpaces (pyLower s) := by
  simp only [pyLower, pyRemoveSpaces]
  congr 1
  rw [List.filter_map]
  congr 1
  apply List.filter_congr
  intro c _
  simp only [Function.comp_apply]
  rw [decide_eq_decide]
  exact (not_congr (toLower_space_iff c)).symm

/-- Membership in the order list comes from a loop index. -/
theorem mem_sample_orders_list {custD dayD : Nat → Nat} {st : Nat → String}
    {dd dh : Nat → Nat} {o : PyOrder}
    (ho : o ∈ sample_orders_list custD dayD st dd dh) :
    ∃ i, i ∈ List.range' 5001 29 ∧
      o = single_order i (custD i) (dayD i) (st i) (dd i) (dh i) := by
  simp only [sample_orders_list, List.mem_map] at ho
  obtain ⟨i, hi, rfl⟩ := ho
  exact ⟨i, hi, rfl⟩

/-- The inner item loop emits exactly `n` items. -/
theorem genOrderItems_length (P : List Product) (pk q : Nat → Nat) (oid : Nat) :
    ∀ (n c : Nat), (genOrderItems P pk q oid c n).length = n := by
  intro n
  induction n with
  | zero => intro c; rfl
  | succ n ih => intro c; simp [genOrderItems, ih]

/-- The inner item loop stamps consecutive counter values as ids. -/
theorem genOrderItems_map_id (P : List Product) (pk q : Nat → Nat) (oid : Nat) :
    ∀ (n c : Nat),
      (genOrderItems P pk q oid c n).map (fun it => it.order_item_id)
        = List.range' c n := by
  intro n
  induction n with
  | zero => intro c; rfl
  | succ n ih => intro c; simp [genOrderItems, ih, List.range'_succ]

/-- Every item of one inner loop run carries that order's id. -/
theorem genOrderItems_map_order_id (P : List Product) (pk q : Nat → Nat) (oid : Nat) :
    ∀ (n c : Nat),
      (genOrderItems P pk q oid c n).map (fun it => it.order_id)
        = List.replicate n oid := by
  intro n
  induction n with
  | zero => intro c; rfl
  | succ n ih => intro c; simp [genOrderItems, ih, List.replicate_succ]

/-- Shape of any item emitted by the inner loop: order id fixed, product id
and price both read off the picked product, quantity from the draw. -/
theorem mem_genOrderItems {P : List Product} {pk q : Nat → Nat} {oid : Nat} :
    ∀ {n c : Nat} {it : OrderItem}, it ∈ genOrderItems P pk q oid c n →
      it.order_id = oid ∧
      ∃ j, it.product_id = (P.getD (pk j) defaultProduct).product_id ∧
        it.price = (P.getD (pk j) defaultProduct).price ∧ it.quantity = q j := by
  intro n
  induction n with
  | zero => intro c it h; simp [genOrderItems] at h
  | succ n ih =>
    intro c it h
    simp only [genOrderItems, List.mem_cons] at h
    rcases h with rfl | h
    · exact ⟨rfl, c, rfl, rfl, rfl⟩
    · exact ih h

/-- The outer loop emits, in total, the sum of the per-order item counts. -/
theorem sample_order_items_aux_length (P : List Product) (pk q num : Nat → Nat) :
    ∀ (os : List PyOrder) (c k : Nat),
      (sample_order_items_aux P pk q num os c k).length
        = ((List.range' k os.length).map num).sum := by
  intro os
  induction os with
  | nil => intro c k; rfl
  | cons o os ih =>
    intro c k
    simp [sample_order_items_aux, genOrderItems_length, ih, List.range'_succ]

/-- The `order_item_id` column of the whole flattened run is the contiguous
range starting at the initial counter value. -/
theorem sample_order_items_aux_map_id (P : List Product) (pk q num : Nat → Nat) :
    ∀ (os : List PyOrder) (c k : Nat),
      (sample_order_items_aux P pk q num os c k).map (fun it => it.order_item_id)
        = List.range' c (((List.range' k os.length).map num).sum) := by
  intro os
  induction os with
  | nil => intro c k; rfl
  | cons o os ih =>
    intro c k
    simp only [sample_order_items_aux, List.map_append, genOrderItems_map_id, ih,
      List.length_cons, List.range'_succ, List.map_cons, List.sum_cons]
    rw [List.range'_append_1, Nat.add_comm]

/-- The `order_id` column is the concatenation of one constant block per
order, in order-list order. -/
theorem sample_order_items_aux_map_order_id (P : List Product) (pk q num : Nat → Nat) :
    ∀ (os : List PyOrder) (c k : Nat),
      (sample_order_items_aux P pk q num os c k).map (fun it => it.order_id)
        = ((List.zip os (List.range' k os.length)).map
            (fun p => List.replicate (num p.2) p.1.order_id)).flatten := by
  intro os
  induction os with
  | nil => intro c k; rfl
  | cons o os ih =>
    intro c k
    simp only [sample_order_items_aux, List.map_append, genOrderItems_map_order_id, ih,
      List.length_cons, List.range'_succ, List.zip_cons_cons, List.map_cons,
      List.flatten_cons]

/-- Every item of the outer loop belongs to one of the walked orders and
reads its product data off one picked product. -/
theorem mem_sample_order_items_aux {P : List Product} {pk q num : Nat → Nat} :
    ∀ {os : List PyOrder} {c k : Nat} {it : OrderItem},
      it ∈ sample_order_items_aux P pk q num os c k →
      (∃ o ∈ os, it.order_id = o.order_id) ∧
      ∃ j, it.product_id = (P.getD (pk j) defaultProduct).product_id ∧
        it.price = (P.getD (pk j) defaultProduct).price ∧ it.quantity = q j := by
  intro os
  induction os with
  | nil => intro c k it h; simp [sample_order_items_aux] at h
  | cons o os ih =>
    intro c k it h
    simp only [sample_order_items_aux, List.mem_append] at h
    rcases h with h | h
    · obtain ⟨hoid, hj⟩ := mem_genOrderItems h
      exact ⟨⟨o, List.mem_cons_self o os, hoid⟩, hj⟩
    · obtain ⟨⟨o', ho', hoid⟩, hj⟩ := ih h
      exact ⟨⟨o', List.mem_cons_of_mem o ho', hoid⟩, hj⟩

/-- The `order_id` column of the full run: one block of `num k` copies of
`5001 + k` for each `k < 29`, concatenated in `k` order. -/
theorem order_items_column (custD dayD : Nat → Nat) (st : Nat → String)
    (dd dh priceD stockD pick qty num : Nat → Nat) :
    (sample_order_items_list custD dayD st dd dh priceD stockD pick qty num).map
        (fun it => it.order_id)
      = ((List.range 29).map (fun k => List.replicate (num k) (5001 + k))).flatten := by
  rw [sample_order_items_list, sample_order_items_aux_map_order_id]
  rfl

/-- Counting one block value in the concatenated blocks recovers that
block's length. -/
theorem count_flatten_blocks (num : Nat → Nat) (s : Nat) :
    ∀ (n k : Nat),
      (((List.range n).map (fun j => List.replicate (num j) (s + j))).flatten).count (s + k)
        = if k < n then num k else 0 := by
  intro n
  induction n with
  | zero => intro k; simp
  | succ n ih =>
    intro k
    rw [List.range_succ]
    simp only [List.map_append, List.flatten_append, List.count_append, ih,
      List.map_cons, List.map_nil, List.flatten_cons, List.flatten_nil,
      List.append_nil, List.count_replicate]
    by_cases hk : k < n
    · have hne : ¬((s + n) == (s + k)) := by simp; omega
      have hk1 : k < n + 1 := by omega
      simp [hk, hne, hk1]
    · by_cases hk' : k = n
      · subst hk'
        simp [hk]
      · have h1 : ¬ k < n + 1 := by omega
        have : ¬((s + n) == (s + k)) := by simp; omega
        simp [hk, h1, this]

/-- Sum bounds for a list whose entries all lie in `[1, 5]`. -/
theorem sum_bounds_of_mem (l : List Nat) (h : ∀ x ∈ l, 1 ≤ x ∧ x ≤ 5) :
    l.length ≤ l.sum ∧ l.sum ≤ 5 * l.length := by
  induction l with
  | nil => simp
  | cons x l ih =>
    have hx := h x (List.mem_cons_self x l)
    have hl := ih (fun y hy => h y (List.mem_cons_of_mem x hy))
    simp only [List.length_cons, List.sum_cons]
    omega

end DataGen

/-! ### Claim theorems -/

namespace DataGen

/-- C6: the generated customers carry `customer_id` values exactly
`1, 2, ..., 24`, contiguous, each once, assigned in index order: the `k`-th
customer appended has `customer_id` `k + 1` (the list of ids is literally
`List.range' 1 24`), for any name/domain/address draws. -/
theorem customers_ids_exact (names doms : Nat → String) (addrs : Nat → Address) :
    (sample_customers_list names doms addrs).map (fun c => c.customer_id)
      = List.range' 1 24 := rfl

/-- C4: generated products have `product_id` exactly `101..122` each once;
price in `[30, 1200]` and stock in `[20, 90]` whenever the random draws are
in those ranges; and the product at offset `k` (id `101 + k`) carries the
name and the category found at offset `k` of the two parallel static
lists. -/
theorem products_spec (priceD stockD : Nat → Nat)
    (hp : ∀ i, 30 ≤ priceD i ∧ priceD i ≤ 1200)
    (hs : ∀ i, 20 ≤ stockD i ∧ stockD i ≤ 90) :
    (sample_products_list priceD stockD).map (fun p => p.product_id)
        = List.range' 101 22 ∧
    (∀ p ∈ sample_products_list priceD stockD,
      30 ≤ p.price ∧ p.price ≤ 1200 ∧ 20 ≤ p.stock_quantity ∧ p.stock_quantity ≤ 90) ∧
    ∀ k, k < 22 →
      ((sample_products_list priceD stockD).getD k defaultProduct).product_id = 101 + k ∧
      ((sample_products_list priceD stockD).getD k defaultProduct).product_name
        = product_names.getD k "" ∧
      ((sample_products_list priceD stockD).getD k defaultProduct).category
        = product_categories.getD k "" := by
  refine ⟨rfl, ?_, ?_⟩
  · intro p hmem
    simp only [sample_products_list, List.mem_map] at hmem
    obtain ⟨i, _, rfl⟩ := hmem
    exact ⟨(hp i).1, (hp i).2, (hs i).1, (hs i).2⟩
  · intro k hk
    interval_cases k <;> exact ⟨rfl, rfl, rfl⟩

/-- Witness for C4: at the constant draws 30 and 20, offset 0 (id 101)
carries the name at offset 0 of the static name list. -/
theorem products_spec_witness :
    ((sample_products_list (fun _ => 30) (fun _ => 20)).getD 0 defaultProduct).product_name
      = product_names.getD 0 "" :=
  ((products_spec (fun _ => 30) (fun _ => 20) (fun _ => ⟨by norm_num, by norm_num⟩)
      (fun _ => ⟨by norm_num, by norm_num⟩)).2.2 0 (by omega)).2.1

/-- C1: for every generated order, the `delivery_date` key is present
(`isSome`) exactly when the status is `"Delivered"`; when the status is
`"Pending"` the key is entirely absent (`none`); and any present
`delivery_date` is `≥` the `order_date`. -/
theorem order_delivery_iff (custD dayD : Nat → Nat) (st : Nat → String)
    (dd dh : Nat → Nat) (o : PyOrder)
    (ho : o ∈ sample_orders_list custD dayD st dd dh) :
    (o.delivery_date.isSome ↔ o.status = "Delivered") ∧
    (o.status = "Pending" → o.delivery_date = none) ∧
    ∀ t, o.delivery_date = some t → o.order_date ≤ t := by
  obtain ⟨i, -, rfl⟩ := mem_sample_orders_list ho
  by_cases hst : st i = "Delivered"
  · refine ⟨by simp [single_order, hst], ?_, ?_⟩
    · intro hpend
      simp only [single_order] at hpend
      rw [hst] at hpend
      exact absurd hpend (by decide)
    · intro t ht
      simp only [single_order, hst, if_pos, Option.some.injEq] at ht
      simp only [single_order]
      omega
  · refine ⟨by simp [single_order, hst], ?_, ?_⟩
    · intro _
      simp [single_order, hst]
    · intro t ht
      simp [single_order, hst] at ht

/-- Witness for C1: a concrete `"Pending"` run, order 5001. -/
theorem order_delivery_iff_witness :
    ((single_order 5001 1 0 "Pending" 0 2).delivery_date.isSome ↔
        (single_order 5001 1 0 "Pending" 0 2).status = "Delivered") ∧
      ((single_order 5001 1 0 "Pending" 0 2).status = "Pending" →
        (single_order 5001 1 0 "Pending" 0 2).delivery_date = none) ∧
      ∀ t, (single_order 5001 1 0 "Pending" 0 2).delivery_date = some t →
        (single_order 5001 1 0 "Pending" 0 2).order_date ≤ t :=
  order_delivery_iff (fun _ => 1) (fun _ => 0) (fun _ => "Pending") (fun _ => 0)
    (fun _ => 2) (single_order 5001 1 0 "Pending" 0 2)
    (List.mem_map.2 ⟨5001, by decide, rfl⟩)

/-- C9: whenever a generated order carries a `delivery_date`, it equals
`order_date + d` days `+ h` hours with `d ∈ [0, 7]` and `h ∈ [2, 24]`, so
it is strictly greater than `order_date` (the gap is at least 2 hours;
equality is impossible). -/
theorem delivery_strictly_after (custD dayD : Nat → Nat) (st : Nat → String)
    (dd dh : Nat → Nat) (hdd : ∀ i, dd i ≤ 7) (hdh : ∀ i, 2 ≤ dh i ∧ dh i ≤ 24)
    (o : PyOrder) (ho : o ∈ sample_orders_list custD dayD st dd dh) :
    ∀ t, o.delivery_date = some t →
      (∃ d h, d ≤ 7 ∧ 2 ≤ h ∧ h ≤ 24 ∧ t = o.order_date + d * 86400 + h * 3600) ∧
      o.order_date < t := by
  obtain ⟨i, -, rfl⟩ := mem_sample_orders_list ho
  intro t ht
  by_cases hst : st i = "Delivered"
  · simp only [single_order, hst, if_pos, Option.some.injEq] at ht
    have h2 := (hdh i).1
    have h24 := (hdh i).2
    refine ⟨⟨dd i, dh i, hdd i, h2, h24, ?_⟩, ?_⟩
    · simp only [single_order]
      omega
    · simp only [single_order]
      omega
  · simp [single_order, hst] at ht

/-- Witness for C9: a concrete `"Delivered"` order with day offset 0 and
hour offset 2 is delivered strictly after it was ordered. -/
theorem delivery_strictly_after_witness :
    (single_order 5001 1 0 "Delivered" 0 2).order_date
      < base_order_date + 0 * 86400 + 0 * 86400 + 2 * 3600 :=
  (delivery_strictly_after (fun _ => 1) (fun _ => 0) (fun _ => "Delivered")
    (fun _ => 0) (fun _ => 2) (fun _ => by norm_num) (fun _ => ⟨by norm_num, by norm_num⟩)
    (single_order 5001 1 0 "Delivered" 0 2)
    (List.mem_map.2 ⟨5001, by decide, rfl⟩)
    (base_order_date + 0 * 86400 + 0 * 86400 + 2 * 3600) rfl).2

/-- C2: across the whole flattened order-item sequence, the
`order_item_id` values are exactly the contiguous integers starting at
9001 (the `k`-th item produced has id `9001 + k`): the id column is
literally `List.range' 9001 length`, for any random draws, because the
single shared counter starts at 9001 and is bumped by exactly 1 per
appended item regardless of order boundaries. -/
theorem order_item_ids_contiguous (custD dayD : Nat → Nat) (st : Nat → String)
    (dd dh priceD stockD pick qty num : Nat → Nat) :
    (sample_order_items_list custD dayD st dd dh priceD stockD pick qty num).map
        (fun it => it.order_item_id)
      = List.range' 9001
          (sample_order_items_list custD dayD st dd dh priceD stockD pick qty num).length := by
  rw [sample_order_items_list, sample_order_items_aux_map_id,
    sample_order_items_aux_length]

/-- C10: in the flattened order-item sequence the `order_id` column is the
concatenation, for `k = 0, ..., 28` in increasing order, of one contiguous
block of `num k` copies of `5001 + k`; consequently the column is sorted
non-decreasing (so items sharing an `order_id` are contiguous and the
blocks appear in increasing `order_id` order, 5001 up to 5029). -/
theorem order_items_grouped_sorted (custD dayD : Nat → Nat) (st : Nat → String)
    (dd dh priceD stockD pick qty num : Nat → Nat) :
    (sample_order_items_list custD dayD st dd dh priceD stockD pick qty num).map
        (fun it => it.order_id)
      = ((List.range 29).map (fun k => List.replicate (num k) (5001 + k))).flatten ∧
    List.Sorted (· ≤ ·)
      ((sample_order_items_list custD dayD st dd dh priceD stockD pick qty num).map
        (fun it => it.order_id)) := by
  refine ⟨order_items_column custD dayD st dd dh priceD stockD pick qty num, ?_⟩
  rw [order_items_column custD dayD st dd dh priceD stockD pick qty num]
  apply List.pairwise_flatten.2
  constructor
  · intro l hl
    simp only [List.mem_map] at hl
    obtain ⟨j, -, rfl⟩ := hl
    exact List.pairwise_replicate.2 (Or.inr (Nat.le_refl _))
  · rw [List.pairwise_map]
    apply (List.pairwise_lt_range 29).imp ?_
    intro j j' hjj' x hx y hy
    rw [List.eq_of_mem_replicate hx, List.eq_of_mem_replicate hy]
    omega

/-- C5: for any draws in their documented ranges, the run yields exactly
24 customers, 22 products and 29 orders (order ids exactly `5001..5029`,
status in `{"Delivered", "Pending"}`, customer id in `[1, 24]`), and the
order-item list's length equals the sum over the 29 orders of that order's
chosen item count, a sum that lies between 29 and 145 inclusive. -/
theorem run_sizes (names doms : Nat → String) (addrs : Nat → Address)
    (custD dayD : Nat → Nat) (st : Nat → String)
    (dd dh priceD stockD pick qty num : Nat → Nat)
    (hst : ∀ i, st i = "Delivered" ∨ st i = "Pending")
    (hcust : ∀ i, 1 ≤ custD i ∧ custD i ≤ 24)
    (hnum : ∀ k, 1 ≤ num k ∧ num k ≤ 5) :
    (sample_customers_list names doms addrs).length = 24 ∧
    (sample_products_list priceD stockD).length = 22 ∧
    (sample_orders_list custD dayD st dd dh).length = 29 ∧
    (sample_orders_list custD dayD st dd dh).map (fun o => o.order_id)
        = List.range' 5001 29 ∧
    (∀ o ∈ sample_orders_list custD dayD st dd dh,
      (o.status = "Delivered" ∨ o.status = "Pending") ∧
      1 ≤ o.customer_id ∧ o.customer_id ≤ 24) ∧
    (sample_order_items_list custD dayD st dd dh priceD stockD pick qty num).length
        = ((List.range' 0 29).map num).sum ∧
    29 ≤ (sample_order_items_list custD dayD st dd dh priceD stockD pick qty num).length ∧
    (sample_order_items_list custD dayD st dd dh priceD stockD pick qty num).length ≤ 145 := by
  have hlen :
      (sample_order_items_list custD dayD st dd dh priceD stockD pick qty num).length
        = ((List.range' 0 29).map num).sum := by
    rw [sample_order_items_list, sample_order_items_aux_length]
    rfl
  have hbounds := sum_bounds_of_mem ((List.range' 0 29).map num) ?_
  · refine ⟨rfl, rfl, rfl, rfl, ?_, hlen, ?_, ?_⟩
    · intro o ho
      obtain ⟨i, -, rfl⟩ := mem_sample_orders_list ho
      exact ⟨hst i, (hcust i).1, (hcust i).2⟩
    · rw [hlen]
      simpa using hbounds.1
    · rw [hlen]
      simpa using hbounds.2
  · intro x hx
    simp only [List.mem_map] at hx
    obtain ⟨i, -, rfl⟩ := hx
    exact hnum i

/-- Witness for C5: concrete draws (status always `"Pending"`, customer 1,
one item per order) hit every stated size. -/
theorem run_sizes_witness :
    29 ≤ (sample_order_items_list (fun _ => 1) (fun _ => 0) (fun _ => "Pending")
      (fun _ => 0) (fun _ => 2) (fun _ => 30) (fun _ => 20) (fun _ => 0)
      (fun _ => 1) (fun _ => 1)).length :=
  (run_sizes (fun _ => "a") (fun _ => "gmail.com") (fun _ => ⟨"", "", ""⟩)
    (fun _ => 1) (fun _ => 0) (fun _ => "Pending") (fun _ => 0) (fun _ => 2)
    (fun _ => 30) (fun _ => 20) (fun _ => 0) (fun _ => 1) (fun _ => 1)
    (fun _ => Or.inr rfl) (fun _ => ⟨by norm_num, by norm_num⟩)
    (fun _ => ⟨by norm_num, by norm_num⟩)).2.2.2.2.2.2.1

/-- C3: every generated order item references a generated order by id and a
generated product by id, snapshots that product's stored price, and has
quantity in `[1, 3]`; the number of items carrying the `k`-th order's id is
exactly that order's drawn item count, which lies in `[1, 5]`; and products
are drawn with replacement: a concrete run (constant pick, two items per
order) has two distinct items of one order with the same product. -/
theorem order_items_valid (custD dayD : Nat → Nat) (st : Nat → String)
    (dd dh priceD stockD pick qty num : Nat → Nat)
    (hpick : ∀ c, pick c < 22) (hq : ∀ c, 1 ≤ qty c ∧ qty c ≤ 3)
    (hnum : ∀ k, 1 ≤ num k ∧ num k ≤ 5) :
    (∀ it ∈ sample_order_items_list custD dayD st dd dh priceD stockD pick qty num,
      (∃ o ∈ sample_orders_list custD dayD st dd dh, it.order_id = o.order_id) ∧
      (∃ p ∈ sample_products_list priceD stockD,
        it.product_id = p.product_id ∧ it.price = p.price) ∧
      1 ≤ it.quantity ∧ it.quantity ≤ 3) ∧
    (∀ k, k < 29 →
      ((sample_order_items_list custD dayD st dd dh priceD stockD pick qty num).map
          (fun it => it.order_id)).count (5001 + k) = num k ∧
      1 ≤ num k ∧ num k ≤ 5) ∧
    ((sample_order_items_list (fun _ => 1) (fun _ => 0) (fun _ => "Pending")
          (fun _ => 0) (fun _ => 2) (fun _ => 30) (fun _ => 20) (fun _ => 0)
          (fun _ => 1) (fun _ => 2)).getD 0 defaultOrderItem).order_id
        = ((sample_order_items_list (fun _ => 1) (fun _ => 0) (fun _ => "Pending")
          (fun _ => 0) (fun _ => 2) (fun _ => 30) (fun _ => 20) (fun _ => 0)
          (fun _ => 1) (fun _ => 2)).getD 1 defaultOrderItem).order_id ∧
      ((sample_order_items_list (fun _ => 1) (fun _ => 0) (fun _ => "Pending")
          (fun _ => 0) (fun _ => 2) (fun _ => 30) (fun _ => 20) (fun _ => 0)
          (fun _ => 1) (fun _ => 2)).getD 0 defaultOrderItem).product_id
        = ((sample_order_items_list (fun _ => 1) (fun _ => 0) (fun _ => "Pending")
          (fun _ => 0) (fun _ => 2) (fun _ => 30) (fun _ => 20) (fun _ => 0)
          (fun _ => 1) (fun _ => 2)).getD 1 defaultOrderItem).product_id ∧
      ((sample_order_items_list (fun _ => 1) (fun _ => 0) (fun _ => "Pending")
          (fun _ => 0) (fun _ => 2) (fun _ => 30) (fun _ => 20) (fun _ => 0)
          (fun _ => 1) (fun _ => 2)).getD 0 defaultOrderItem).order_item_id
        ≠ ((sample_order_items_list (fun _ => 1) (fun _ => 0) (fun _ => "Pending")
          (fun _ => 0) (fun _ => 2) (fun _ => 30) (fun _ => 20) (fun _ => 0)
          (fun _ => 1) (fun _ => 2)).getD 1 defaultOrderItem).order_item_id := by
  refine ⟨?_, ?_, rfl, rfl, by decide⟩
  · intro it hit
    obtain ⟨⟨o, ho, hoid⟩, j, hpid, hprice, hqj⟩ := mem_sample_order_items_aux hit
    refine ⟨⟨o, ho, hoid⟩,
      ⟨(sample_products_list priceD stockD).getD (pick j) defaultProduct, ?_, hpid, hprice⟩,
      ?_, ?_⟩
    · rw [List.getD_eq_getElem _ _
        (show pick j < (sample_products_list priceD stockD).length from hpick j)]
      exact List.getElem_mem _
    · rw [hqj]; exact (hq j).1
    · rw [hqj]; exact (hq j).2
  · intro k hk
    rw [order_items_column custD dayD st dd dh priceD stockD pick qty num,
      count_flatten_blocks num 5001 29 k]
    simp [hk]
    exact hnum k

/-- Witness for C3: with concrete draws (pick 0, quantity 1, one item per
order), the first produced item references order 5001 and product 101 and
snapshots its price 30. -/
theorem order_items_valid_witness :
    (∃ o ∈ sample_orders_list (fun _ => 1) (fun _ => 0) (fun _ => "Pending")
        (fun _ => 0) (fun _ => 2),
      (⟨9001, 5001, 101, 1, 30⟩ : OrderItem).order_id = o.order_id) ∧
    (∃ p ∈ sample_products_list (fun _ => 30) (fun _ => 20),
      (⟨9001, 5001, 101, 1, 30⟩ : OrderItem).product_id = p.product_id ∧
      (⟨9001, 5001, 101, 1, 30⟩ : OrderItem).price = p.price) ∧
    1 ≤ (⟨9001, 5001, 101, 1, 30⟩ : OrderItem).quantity ∧
    (⟨9001, 5001, 101, 1, 30⟩ : OrderItem).quantity ≤ 3 :=
  (order_items_valid (fun _ => 1) (fun _ => 0) (fun _ => "Pending") (fun _ => 0)
    (fun _ => 2) (fun _ => 30) (fun _ => 20) (fun _ => 0) (fun _ => 1) (fun _ => 1)
    (fun _ => by norm_num) (fun _ => ⟨by norm_num, by norm_num⟩)
    (fun _ => ⟨by norm_num, by norm_num⟩)).1
    ⟨9001, 5001, 101, 1, 30⟩ (by decide)

/-- C7: every generated customer's email equals the customer's name with
all spaces removed and lower-cased, followed by `"@"` and one of the three
fixed domains; and removing spaces before lower-casing (as the code does)
yields the same string as lower-casing first (the spec's order). -/
theorem customer_email_spec (names doms : Nat → String) (addrs : Nat → Address)
    (hdom : ∀ i, doms i ∈ email_domains) :
    ∀ c ∈ sample_customers_list names doms addrs,
      ∃ d ∈ email_domains,
        c.email = pyLower (pyRemoveSpaces c.name) ++ "@" ++ d ∧
        pyLower (pyRemoveSpaces c.name) = pyRemoveSpaces (pyLower c.name) := by
  intro c hc
  simp only [sample_customers_list, List.mem_map] at hc
  obtain ⟨i, -, rfl⟩ := hc
  exact ⟨doms i, hdom i, rfl, pyLower_pyRemoveSpaces (names i)⟩

/-- Witness for C7: the customer named `"Ann Lee"` with domain
`"gmail.com"` gets email `"annlee@gmail.com"`. -/
theorem customer_email_spec_witness :
    ∃ d ∈ email_domains,
      (single_customer_data 1 "Ann Lee" "gmail.com" ⟨"", "", ""⟩).email
          = pyLower (pyRemoveSpaces
              (single_customer_data 1 "Ann Lee" "gmail.com" ⟨"", "", ""⟩).name) ++ "@" ++ d ∧
      pyLower (pyRemoveSpaces (single_customer_data 1 "Ann Lee" "gmail.com" ⟨"", "", ""⟩).name)
          = pyRemoveSpaces (pyLower
              (single_customer_data 1 "Ann Lee" "gmail.com" ⟨"", "", ""⟩).name) :=
  customer_email_spec (fun _ => "Ann Lee") (fun _ => "gmail.com") (fun _ => ⟨"", "", ""⟩)
    (fun _ => by simp [email_domains])
    (single_customer_data 1 "Ann Lee" "gmail.com" ⟨"", "", ""⟩)
    (List.mem_map.2 ⟨1, by decide, rfl⟩)

/-- C8: the custom serializer returns the ISO-8601 rendering of its input
exactly when the input is a datetime, and raises
`TypeError("Type not serializable")` (modelled as `Except.error`) on every
value of any other type. -/
theorem custom_serializer_spec (v : PyValue) :
    (∃ d, v = PyValue.vDatetime d ∧ custom_serializer v = Except.ok d.isoformat) ∨
    ((∀ d, v ≠ PyValue.vDatetime d) ∧
      custom_serializer v = Except.error "Type not serializable") := by
  cases v with
  | vDatetime d => exact Or.inl ⟨d, rfl, rfl⟩
  | vNone => exact Or.inr ⟨fun d h => PyValue.noConfusion h, rfl⟩
  | vBool b => exact Or.inr ⟨fun d h => PyValue.noConfusion h, rfl⟩
  | vInt n => exact Or.inr ⟨fun d h => PyValue.noConfusion h, rfl⟩
  | vStr s => exact Or.inr ⟨fun d h => PyValue.noConfusion h, rfl⟩
  | vList l => exact Or.inr ⟨fun d h => PyValue.noConfusion h, rfl⟩
  | vDict l => exact Or.inr ⟨fun d h => PyValue.noConfusion h, rfl⟩

end DataGen
